import Mathlib

/-!
Verification of the aiconmac admin-client session/authorization core.

The definitions below are a shallow embedding of the client code:
`AuthContext.tsx` (session store, route-guard effect), `AdminLayout.tsx`
(layout gate and role-filtered navigation), `lib/api.ts` (request
interceptor), and the per-page mount effects and role gates of the
dashboard pages (projects, testimonials, contacts, careers, users).
Asynchronous handlers are embedded as explicit effect traces applied to an
explicit client state; backend outcomes are passed in as values of a sum
type.
-/

namespace Aiconmac

/-- Roles a dashboard user can have (`AuthContext.tsx`, `User.role`). -/
inductive Role
  | ADMIN
  | EDITOR
  | VIEWER
deriving DecidableEq, Repr

/-- The authenticated user record returned by the backend. -/
structure User where
  id : String
  email : String
  name : Option String
  role : Role
deriving DecidableEq, Repr

/-- Attributes passed to `Cookies.set` for the token cookie:
`{ expires: 7, secure: process.env.NODE_ENV === 'production' }`. -/
structure CookieAttrs where
  expiresDays : Nat
  secure : Bool
deriving DecidableEq, Repr

/-- The persisted `token` cookie. -/
structure Cookie where
  value : String
  attrs : CookieAttrs
deriving DecidableEq, Repr

/-- In-memory React state of the `AuthProvider` component. -/
structure AuthState where
  user : Option User
  token : Option String
  isLoading : Bool
  error : Option String
deriving DecidableEq, Repr

/-- Client state touched by the session store: the provider's in-memory
state, the browser's persisted `token` cookie, and the current pathname
(changed by `router.push`). -/
structure ClientState where
  auth : AuthState
  tokenCookie : Option Cookie
  pathname : String
deriving DecidableEq, Repr

/-- An axios-style failure as observed by the catch blocks:
`err.response?.data?.message` (absent for network errors or message-less
responses) and the error's own `err.message` string. -/
structure ApiFailure where
  responseMessage : Option String
  message : String
deriving DecidableEq, Repr

/-- Primitive state updates performed by the `AuthProvider` handlers:
React state setters, cookie writes, and router navigation. -/
inductive Effect
  | setUser (u : Option User)
  | setToken (t : Option String)
  | setIsLoading (b : Bool)
  | setError (e : Option String)
  | removeTokenCookie
  | setTokenCookie (c : Cookie)
  | push (route : String)
deriving DecidableEq, Repr

/-- Apply one primitive update to the client state. -/
def applyEffect (s : ClientState) : Effect → ClientState
  | .setUser u => { s with auth := { s.auth with user := u } }
  | .setToken t => { s with auth := { s.auth with token := t } }
  | .setIsLoading b => { s with auth := { s.auth with isLoading := b } }
  | .setError e => { s with auth := { s.auth with error := e } }
  | .removeTokenCookie => { s with tokenCookie := none }
  | .setTokenCookie c => { s with tokenCookie := some c }
  | .push r => { s with pathname := r }

/-- Run a trace of updates in order. -/
def applyEffects (s : ClientState) (es : List Effect) : ClientState :=
  es.foldl applyEffect s

/-- Handler `logout` (`AuthContext.tsx` lines 89-94): remove the token cookie,
clear token and user, navigate to the login page.  The handler is

synchronous and unconditional. -/
def logoutEffects : List Effect :=
  [.removeTokenCookie, .setToken none, .setUser none, .push "/login"]

/-- Handler `loadUser` (`AuthContext.tsx` lines 37-56, the spec's `initialize()`)
on the scope of the claims that use it, where the cookie found at mount is
absent or JS-truthy: when a (truthy) token is found, set the in-memory
token and verify it against `GET /auth/me`; on success store the returned
user; on any failure fall back to `logout()`; in every path finish with
`setIsLoading(false)`.  `verify` is the outcome of the verification call,
consulted only when a token is found.  The source's full
`if (storedToken)` truthiness test — which is also false for a present
cookie with empty value — is embedded separately as
`loadUserTruthyEffects` below. -/
def loadUserEffects (cookie : Option Cookie) (verify : ApiFailure ⊕ User) : List Effect :=
  match cookie with
  | none => [.setIsLoading false]
  | some c =>
    .setToken (some c.value) ::
      ((match verify with
        | .inr u => [.setUser (some u)]
        | .inl _ => logoutEffects) ++ [.setIsLoading false])

/-- JavaScript `a || b` on a possibly-missing string (the empty string is
falsy). -/
def jsOrElse (a : Option String) (b : String) : String :=
  match a with
  | some s => if s = "" then b else s
  | none => b

/-- The message computed in `login`'s catch block:
`err.response?.data?.message || err.message || 'Login failed'`. -/
def loginErrorMessage (e : ApiFailure) : String :=
  jsOrElse e.responseMessage (jsOrElse (some e.message) "Login failed")

/-- Handler `login` (`AuthContext.tsx` lines 69-87): set `isLoading`, clear the
error, call `POST /auth/login`; on success persist the returned token
(7-day expiry, secure flag exactly in production), set token and user and
navigate to the dashboard; on failure record the computed message; the
`finally` block always clears `isLoading`. -/
def loginEffects (env : String) (result : ApiFailure ⊕ (User × String)) : List Effect :=
  [.setIsLoading true, .setError none] ++
    (match result with
     | .inr (u, jwt) =>
       [.setTokenCookie ⟨jwt, ⟨7, env == "production"⟩⟩,
        .setToken (some jwt), .setUser (some u), .push "/dashboard"]
     | .inl e => [.setError (some (loginErrorMessage e))]) ++
    [.setIsLoading false]

/-- What `login` returns to its caller: `throw new Error(errorMessage)` on
failure, normal completion on success. -/
def loginThrown (result : ApiFailure ⊕ (User × String)) : Except String Unit :=
  match result with
  | .inr _ => .ok ()
  | .inl e => .error (loginErrorMessage e)

/-- Run the mount-time `loadUser` against the current client state. -/
def runLoadUser (s : ClientState) (verify : ApiFailure ⊕ User) : ClientState :=
  applyEffects s (loadUserEffects s.tokenCookie verify)

/-- Run a `login` call against the current client state. -/
def runLogin (s : ClientState) (env : String)
    (result : ApiFailure ⊕ (User × String)) : ClientState :=
  applyEffects s (loginEffects env result)

/-- Run `logout` against the current client state. -/
def runLogout (s : ClientState) : ClientState :=
  applyEffects s logoutEffects

/-- Provider state at component mount: no user, no in-memory token,
`isLoading = true`, no error, whatever cookie the browser holds. -/
def mountState (cookie : Option Cookie) (path : String) : ClientState :=
  { auth := { user := none, token := none, isLoading := true, error := none }
    tokenCookie := cookie
    pathname := path }

/-- Recognizer for the `setIsLoading(false)` effect, used to count how
often a trace settles the loading flag. -/
def isSetLoadingFalse : Effect → Bool
  | .setIsLoading false => true
  | _ => false

/-- The redirect effect (`AuthContext.tsx` lines 59-67) as a function of
the state it observes, returning the route pushed, if any: nothing while
loading; `/dashboard` for a logged-in user sitting on the login page;
`/login` for a missing user anywhere but the login page. -/
def guardRedirect (isLoading : Bool) (user : Option User) (pathname : String) :
    Option String :=
  if isLoading then none
  else if user.isSome && pathname == "/login" then some "/dashboard"
  else if user.isNone && pathname != "/login" then some "/login"
  else none

/-- The three mutually exclusive things `AdminLayout` can render
(`AdminLayout.tsx` lines 56-70 and the final return). -/
inductive AdminRender
  | spinner
  | redirectingToLogin
  | content
deriving DecidableEq, Repr

/-- The `AdminLayout` top-level render decision: a spinner while
`isLoading`, the "Redirecting to login..." placeholder when no user is
present, otherwise the protected content. -/
def adminLayoutRender (isLoading : Bool) (user : Option User) : AdminRender :=
  if isLoading then .spinner
  else match user with
    | none => .redirectingToLogin
    | some _ => .content

/-- One sidebar entry of `AdminLayout.navItems` (lines 72-81): its route,
label, and the roles allowed to see it. -/
structure NavItem where
  href : String
  label : String
  roles : List Role
deriving DecidableEq, Repr

/-- The full `navItems` array of `AdminLayout.tsx`. -/
def navItems : List NavItem :=
  [⟨"/dashboard", "Overview", [.ADMIN, .EDITOR, .VIEWER]⟩,
   ⟨"/dashboard/projects", "Projects", [.ADMIN, .EDITOR]⟩,
   ⟨"/dashboard/clients", "Clients", [.ADMIN, .EDITOR]⟩,
   ⟨"/dashboard/testimonials", "Testimonials", [.ADMIN, .EDITOR, .VIEWER]⟩,
   ⟨"/dashboard/contacts", "Contact Forms", [.ADMIN, .EDITOR, .VIEWER]⟩,
   ⟨"/dashboard/careers", "Career Submissions", [.ADMIN, .EDITOR]⟩,
   ⟨"/dashboard/brochure-requests", "Brochure Requests", [.ADMIN, .EDITOR, .VIEWER]⟩,
   ⟨"/dashboard/users", "User Management", [.ADMIN]⟩]

/-- The filter `navItems.filter(item => user && item.roles.includes(user.role))` for a
present user of role `r`. -/
def filteredNavItems (r : Role) : List NavItem :=
  navItems.filter (fun item => item.roles.contains r)

/-- What a page's fetch-gate `useEffect` does at mount for a given
(possibly absent) user. -/
inductive FetchGate
  | fetchList
  | waitForAuth
  | denyWithError (msg : String)
  | stopLoadingOnly
deriving DecidableEq, Repr

/-- The `ProjectsPage` mount effect (projects page lines 147-156):
fetch for ADMIN/EDITOR, wait silently while the user is still unknown,
otherwise record an authorization error. -/
def projectsFetchGate : Option Role → FetchGate
  | some .ADMIN => .fetchList
  | some .EDITOR => .fetchList
  | none => .waitForAuth
  | some _ => .denyWithError "You are not authorized to view this page."

/-- The `TestimonialsPage` mount effect (lines 62-69): fetch when the user's
role is in `['ADMIN','EDITOR','VIEWER']`, otherwise (including while the
user is still absent) record an authorization error. -/
def testimonialsFetchGate : Option Role → FetchGate
  | some r =>
    if [Role.ADMIN, Role.EDITOR, Role.VIEWER].contains r then .fetchList
    else .denyWithError "You are not authorized to view this page."
  | none => .denyWithError "You are not authorized to view this page."

/-- The `ContactsPage` mount effect (contacts page lines 42-48): same shape as
the testimonials gate, allow list `['ADMIN','EDITOR','VIEWER']`. -/
def contactsFetchGate : Option Role → FetchGate
  | some r =>
    if [Role.ADMIN, Role.EDITOR, Role.VIEWER].contains r then .fetchList
    else .denyWithError "You are not authorized to view this page."
  | none => .denyWithError "You are not authorized to view this page."

/-- The `CareersPage` mount effect (careers page lines 42-48): allow list
`['ADMIN','EDITOR']`. -/
def careersFetchGate : Option Role → FetchGate
  | some r =>
    if [Role.ADMIN, Role.EDITOR].contains r then .fetchList
    else .denyWithError "You are not authorized to view this page."
  | none => .denyWithError "You are not authorized to view this page."

/-- The `UsersPage` mount effect (users page lines 35-41): fetch only for an
ADMIN, otherwise just stop the loading spinner (the render path then shows
"Access Denied" for a present non-admin). -/
def usersFetchGate : Option Role → FetchGate
  | some .ADMIN => .fetchList
  | _ => .stopLoadingOnly

/-- The `UsersPage` render guard: a present user whose role is not ADMIN gets
the "Access Denied" view. -/
def usersPageAccessDenied : Option Role → Bool
  | some r => r != Role.ADMIN
  | none => false

/-- The pervasive mutation gate
`user?.role === 'ADMIN' || user?.role === 'EDITOR'` guarding every
create/update/delete affordance on the projects, testimonials, contacts
and careers pages. -/
def isAdminOrEditor (u : Option Role) : Bool :=
  u == some Role.ADMIN || u == some Role.EDITOR

/-- Contacts/careers delete affordance gate: `user?.role === 'ADMIN'`. -/
def isAdminOnly (u : Option Role) : Bool :=
  u == some Role.ADMIN

/-- An outbound request as the axios interceptor sees it. -/
structure RequestConfig where
  url : String
  headers : List (String × String)
deriving DecidableEq, Repr

/-- Assignment to one header key (`config.headers.Authorization = ...`). -/
def setHeader (hs : List (String × String)) (k v : String) :
    List (String × String) :=
  (k, v) :: hs.filter (fun p => p.1 ≠ k)

/-- Header lookup. -/
def getHeader (hs : List (String × String)) (k : String) : Option String :=
  (hs.find? (fun p => p.1 == k)).map Prod.snd

/-- The request interceptor of `lib/api.ts` lines 15-22: attach
`Authorization: Bearer <token>` when a persisted token exists, leave the
request untouched otherwise.  `cookieToken` stands for the JS-truthy
stored token: the `none` branch covers both a missing `token` cookie and a
present cookie with empty value, for which the source's `if (token)` is
likewise false and no header is attached. -/
def requestInterceptor (cookieToken : Option String) (config : RequestConfig) :
    RequestConfig :=
  match cookieToken with
  | some t =>
    { config with headers := setHeader config.headers "Authorization" ("Bearer " ++ t) }
  | none => config

/-- A successful backend response (opaque payload). -/
structure Response where
  status : Nat
  body : String
deriving DecidableEq, Repr

/-- One dispatch through the api client: the interceptor runs, then the
network outcome is returned as-is.  There is no response interceptor, no
retry, and no error mapping in `lib/api.ts`; the request-side error
handler is `(error) => Promise.reject(error)`. -/
def apiSend (cookieToken : Option String) (config : RequestConfig)
    (net : RequestConfig → ApiFailure ⊕ Response) : ApiFailure ⊕ Response :=
  net (requestInterceptor cookieToken config)

/-- The interceptor's rejection handler: re-reject the same error. -/
def requestOnError (e : ApiFailure) : ApiFailure ⊕ Response :=
  Sum.inl e

/-- Membership in the character class `[a-z0-9]` of the slug regex:
code points 97-122 are `a`-`z`, 48-57 are `0`-`9`. -/
def isSlugAlnum (c : Char) : Bool :=
  (97 ≤ c.toNat && c.toNat ≤ 122) || (48 ≤ c.toNat && c.toNat ≤ 57)

/-- ASCII case folding as performed by `toLowerCase()` on the characters
the slug pipeline distinguishes: code points 65-90 (`A`-`Z`) shift down by
32, everything else is unchanged. -/
def asciiToLower (c : Char) : Char :=
  if 65 ≤ c.toNat ∧ c.toNat ≤ 90 then Char.ofNat (c.toNat + 32) else c

/-- Step `.replace(/[^a-z0-9]+/g, '-')`: replace every maximal run of
characters outside `[a-z0-9]` by a single hyphen.  The flag tracks whether
the scan is inside such a run (so only the first character of a run emits
the hyphen). -/
def collapseRuns (inRun : Bool) : List Char → List Char
  | [] => []
  | c :: cs =>
    if isSlugAlnum c then c :: collapseRuns false cs
    else if inRun then collapseRuns true cs
    else '-' :: collapseRuns true cs

/-- The `^-` alternative of `.replace(/(^-|-$)+/g, '')`: the anchored
match can remove at most the single leading hyphen. -/
def dropLeadingHyphen : List Char → List Char
  | [] => []
  | c :: cs => if c == '-' then cs else c :: cs

/-- The `-$` alternative of `.replace(/(^-|-$)+/g, '')`: remove the final
character when it is a hyphen. -/
def dropTrailingHyphen : List Char → List Char
  | [] => []
  | [c] => if c == '-' then [] else [c]
  | c :: d :: rest => c :: dropTrailingHyphen (d :: rest)

/-- Step `.replace(/(^-|-$)+/g, '')`: without the multiline flag `^` and `$`
anchor only at the ends of the string, so the replacement removes one
leading and one trailing hyphen (both at once for the string `"--"`,
through the `+`). -/
def stripEdgeHyphens (l : List Char) : List Char :=
  dropTrailingHyphen (dropLeadingHyphen l)

/-- The slug pipeline of the `ProjectsPage` title effect (lines 113-121):
`title.toLowerCase().replace(/[^a-z0-9]+/g, '-').replace(/(^-|-$)+/g, '')`,
at the level of character lists. -/
def slugChars (l : List Char) : List Char :=
  stripEdgeHyphens (collapseRuns false (l.map asciiToLower))

/-- The derived slug for a title. -/
def slugify (title : String) : String :=
  String.mk (slugChars title.toList)

/-- Every character is in `[a-z0-9]` or is a hyphen. -/
def goodSlugChars (l : List Char) : Bool :=
  l.all (fun ch => isSlugAlnum ch || ch == '-')

/-- No two adjacent hyphens (runs of non-alphanumerics were collapsed). -/
def noDoubleHyphen : List Char → Bool
  | [] => true
  | [_] => true
  | a :: b :: rest => !(a == '-' && b == '-') && noDoubleHyphen (b :: rest)

/-- Does the list start with a hyphen? -/
def headIsHyphen : List Char → Bool
  | [] => false
  | c :: _ => c == '-'

/-- Does the list end with a hyphen? -/
def lastIsHyphen : List Char → Bool
  | [] => false
  | [c] => c == '-'
  | _ :: d :: rest => lastIsHyphen (d :: rest)

/-- Handler `loadUser` with the source's JavaScript truthiness test made
explicit: `const storedToken = Cookies.get('token'); if (storedToken)` is
false both for a missing cookie and for a present cookie whose value is
the empty string, so in both cases the handler only settles the loading
flag — in particular it neither verifies nor removes an empty-valued
cookie.  (`loadUserEffects` above embeds the same handler on the scope
where a found token is truthy, which is the hypothesis of the claims that
use it.) -/
def loadUserTruthyEffects (cookie : Option Cookie) (verify : ApiFailure ⊕ User) :
    List Effect :=
  match cookie with
  | none => [.setIsLoading false]
  | some c =>
    if c.value = "" then [.setIsLoading false]
    else
      .setToken (some c.value) ::
        ((match verify with
          | .inr u => [.setUser (some u)]
          | .inl _ => logoutEffects) ++ [.setIsLoading false])

/-- Run the mount-time `loadUser` (with the truthiness test) against the
current client state. -/
def runLoadUserTruthy (s : ClientState) (verify : ApiFailure ⊕ User) : ClientState :=
  applyEffects s (loadUserTruthyEffects s.tokenCookie verify)

/-- The session-store operations a client session consists of, each
carrying the backend outcome it observes. -/
inductive SessionOp
  | loadSession (verify : ApiFailure ⊕ User)
  | loginOp (env : String) (result : ApiFailure ⊕ (User × String))
  | logoutOp
deriving Repr

/-- Run one session-store operation, with `loadUser` embedded in full
(truthiness test included). -/
def applyOpTruthy (s : ClientState) : SessionOp → ClientState
  | .loadSession v => runLoadUserTruthy s v
  | .loginOp env r => runLogin s env r
  | .logoutOp => runLogout s

/-- The C10 invariant: the in-memory token equals the value of the
persisted `token` cookie (in particular each is present exactly when the
other is). -/
@[reducible] def tokensAgree (s : ClientState) : Prop :=
  s.auth.token = s.tokenCookie.map Cookie.value

/-- A session operation that never stores a JS-falsy token: if it is a
successful login, the returned token string is non-empty. -/
def opKeepsTruthyToken : SessionOp → Bool
  | .loginOp _ (Sum.inr (_, jwt)) => jwt != ""
  | _ => true

/-- Strengthened invariant for the amended C10: token/cookie agreement
plus a JS-truthy (non-empty) value in the persisted cookie whenever it is
present. -/
def tokensAgreeTruthy (s : ClientState) : Prop :=
  tokensAgree s ∧ s.tokenCookie.all (fun c => c.value != "") = true

/-- Normal form of the slug pipeline's output: only `[a-z0-9-]`
characters, no adjacent hyphens, no leading and no trailing hyphen. -/
def isNormalSlug (l : List Char) : Bool :=
  goodSlugChars l && noDoubleHyphen l && !(headIsHyphen l) && !(lastIsHyphen l)

/-- C1: when `loadUser` finds a persisted token and the `/auth/me`
verification rejects it — whatever the failure — the settled session has
`user = none`, the token cookie has been removed, `isLoading` is false,
and the trace sets `isLoading := false` exactly once. -/
theorem loadUser_rejected_clears_session (c : Cookie) (f : ApiFailure) (p : String) :
    (runLoadUser (mountState (some c) p) (Sum.inl f)).auth.user = none ∧
    (runLoadUser (mountState (some c) p) (Sum.inl f)).tokenCookie = none ∧
    (runLoadUser (mountState (some c) p) (Sum.inl f)).auth.isLoading = false ∧
    (loadUserEffects (some c) (Sum.inl f)).countP isSetLoadingFalse = 1 :=
  ⟨rfl, rfl, rfl, rfl⟩

/-- C2: `AdminLayout` renders only the spinner while `isLoading`, and once
loading is resolved it renders the protected content exactly when a user
is present and the redirect-to-login placeholder exactly when none is. -/
theorem admin_layout_exactly_one (u : Option User) :
    adminLayoutRender true u = AdminRender.spinner ∧
    (adminLayoutRender false u = AdminRender.content ↔ u.isSome = true) ∧
    (adminLayoutRender false u = AdminRender.redirectingToLogin ↔ u.isNone = true) := by
  cases u <;> simp [adminLayoutRender]

/-- C3: once loading is false the guard pushes `/dashboard` for a present
user on the login page and `/login` for a missing user elsewhere; the
state produced by a failed verification has `user = none` and the guard
treats it exactly like the state produced by `logout` — there is no
special case for verification errors. -/
theorem guard_redirect_rules (u : User) (p q : String) (s : ClientState)
    (c : Cookie) (f : ApiFailure) :
    guardRedirect false (some u) "/login" = some "/dashboard" ∧
    (p ≠ "/login" → guardRedirect false none p = some "/login") ∧
    (runLoadUser (mountState (some c) q) (Sum.inl f)).auth.user = none ∧
    (∀ path, guardRedirect false
        (runLoadUser (mountState (some c) q) (Sum.inl f)).auth.user path
      = guardRedirect false (runLogout s).auth.user path) := by
  refine ⟨rfl, ?_, rfl, fun _ => rfl⟩
  intro h
  simp [guardRedirect, h]

/-- Witness for `guard_redirect_rules` at concrete inputs. -/
theorem guard_redirect_rules_witness :
    guardRedirect false none "/dashboard" = some "/login" ∧
    guardRedirect false (some ⟨"1", "a@b.c", none, Role.ADMIN⟩) "/login"
      = some "/dashboard" := by
  have h := guard_redirect_rules ⟨"1", "a@b.c", none, Role.ADMIN⟩ "/dashboard" "/x"
      (mountState none "/x") ⟨"t", ⟨7, false⟩⟩ ⟨none, "boom"⟩
  exact ⟨h.2.1 (by decide), h.1⟩

/-- C4 counterexample: a failing login whose error carries no backend
message records the transport error's own message (here `Network Error`),
which is neither backend-provided nor the `Login failed` fallback. -/
theorem login_failure_message_counterexample :
    (runLogin (mountState none "/login") "development"
        (Sum.inl ⟨none, "Network Error"⟩)).auth.error = some "Network Error" ∧
    (("Network Error" : String) == "Login failed") = false ∧
    (⟨none, "Network Error"⟩ : ApiFailure).responseMessage = none := by
  decide

/-- C4 (amended): every failing login records the computed message — the
backend-provided message, else the error's own message, else the
`Login failed` fallback — re-throws that same message, leaves user, token,
cookie and pathname unchanged, and the `finally` block settles
`isLoading = false` on success and failure alike. -/
theorem login_failure_behavior (s : ClientState) (env : String) (f : ApiFailure) :
    (runLogin s env (Sum.inl f)).auth.error = some (loginErrorMessage f) ∧
    loginThrown (Sum.inl f) = Except.error (loginErrorMessage f) ∧
    (runLogin s env (Sum.inl f)).auth.user = s.auth.user ∧
    (runLogin s env (Sum.inl f)).auth.token = s.auth.token ∧
    (runLogin s env (Sum.inl f)).tokenCookie = s.tokenCookie ∧
    (runLogin s env (Sum.inl f)).pathname = s.pathname ∧
    (∀ r, (runLogin s env r).auth.isLoading = false) := by
  refine ⟨rfl, rfl, rfl, rfl, rfl, rfl, ?_⟩
  intro r
  rcases r with f' | ⟨u, jwt⟩ <;> rfl

/-- C5: a successful login persists the returned token in the `token`
cookie with a 7-day expiry and the secure flag exactly in production, sets
the in-memory token and user, navigates to the dashboard home, and settles
`isLoading = false`. -/
theorem login_success_persists_and_redirects (s : ClientState) (env : String)
    (u : User) (jwt : String) :
    (runLogin s env (Sum.inr (u, jwt))).tokenCookie
      = some ⟨jwt, ⟨7, env == "production"⟩⟩ ∧
    ((env == "production") = true ↔ env = "production") ∧
    (runLogin s env (Sum.inr (u, jwt))).auth.token = some jwt ∧
    (runLogin s env (Sum.inr (u, jwt))).auth.user = some u ∧
    (runLogin s env (Sum.inr (u, jwt))).pathname = "/dashboard" ∧
    (runLogin s env (Sum.inr (u, jwt))).auth.isLoading = false ∧
    loginThrown (Sum.inr (u, jwt)) = Except.ok () := by
  refine ⟨rfl, ?_, rfl, rfl, rfl, rfl, rfl⟩
  simp

/-- C6: `logout` unconditionally removes the token cookie, clears user and
token, and navigates to the login page — from any state, in particular
immediately after any `login`. -/
theorem logout_clears_everything (s : ClientState) (env : String)
    (r : ApiFailure ⊕ (User × String)) :
    (runLogout s).tokenCookie = none ∧
    (runLogout s).auth.user = none ∧
    (runLogout s).auth.token = none ∧
    (runLogout s).pathname = "/login" ∧
    (runLogout (runLogin s env r)).tokenCookie = none ∧
    (runLogout (runLogin s env r)).auth.user = none :=
  ⟨rfl, rfl, rfl, rfl, rfl, rfl⟩

/-- C7: the api client attaches `Authorization: Bearer <token>` exactly
when the token cookie is present, leaves the request untouched otherwise,
and passes network/HTTP errors back unchanged — one dispatch, no retry, no
transformation; the interceptor's rejection handler re-rejects the same
error. -/
theorem api_client_bearer_and_passthrough (c : RequestConfig) (t : String)
    (e : ApiFailure) :
    getHeader (requestInterceptor (some t) c).headers "Authorization"
      = some ("Bearer " ++ t) ∧
    requestInterceptor none c = c ∧
    (∀ ct, apiSend ct c (fun _ => Sum.inl e) = Sum.inl e) ∧
    requestOnError e = Sum.inl e :=
  ⟨rfl, rfl, fun _ => rfl, rfl⟩

/-- C9 counterexample: the Projects page does not offer the list to a
VIEWER — its mount gate records an authorization error instead of
fetching. -/
theorem viewer_projects_fetch_denied :
    projectsFetchGate (some Role.VIEWER)
      = FetchGate.denyWithError "You are not authorized to view this page." ∧
    (projectsFetchGate (some Role.VIEWER) == FetchGate.fetchList) = false := by
  decide

/-- C9 (amended): a VIEWER gets read-only access on the pages whose allow
lists include VIEWER (Testimonials, Contact Forms; Brochure Requests has
no gate) and is denied on Projects, Careers and Users, which are also
absent from the VIEWER's navigation; no create/update/delete affordance is
exposed, since every such affordance requires ADMIN or EDITOR (or ADMIN
alone). -/
theorem viewer_read_only_surface :
    filteredNavItems Role.VIEWER =
      [⟨"/dashboard", "Overview", [.ADMIN, .EDITOR, .VIEWER]⟩,
       ⟨"/dashboard/testimonials", "Testimonials", [.ADMIN, .EDITOR, .VIEWER]⟩,
       ⟨"/dashboard/contacts", "Contact Forms", [.ADMIN, .EDITOR, .VIEWER]⟩,
       ⟨"/dashboard/brochure-requests", "Brochure Requests",
         [.ADMIN, .EDITOR, .VIEWER]⟩] ∧
    testimonialsFetchGate (some Role.VIEWER) = FetchGate.fetchList ∧
    contactsFetchGate (some Role.VIEWER) = FetchGate.fetchList ∧
    projectsFetchGate (some Role.VIEWER)
      = FetchGate.denyWithError "You are not authorized to view this page." ∧
    careersFetchGate (some Role.VIEWER)
      = FetchGate.denyWithError "You are not authorized to view this page." ∧
    usersFetchGate (some Role.VIEWER) = FetchGate.stopLoadingOnly ∧
    usersPageAccessDenied (some Role.VIEWER) = true ∧
    isAdminOrEditor (some Role.VIEWER) = false ∧
    isAdminOnly (some Role.VIEWER) = false := by
  decide

/-- C10 counterexample: an empty-valued persisted `token` cookie — exactly
what a successful login whose backend returns the token `""` writes — is
JS-falsy, so `loadUser`'s `if (storedToken)` branch is skipped: after the
startup operation settles, the cookie is still present while the in-memory
token is `null`, and the claimed agreement fails. -/
theorem token_cookie_disagreement_counterexample :
    (runLogin (mountState none "/login") "development"
        (Sum.inr (⟨"1", "a@b.c", none, Role.ADMIN⟩, ""))).tokenCookie
      = some ⟨"", ⟨7, false⟩⟩ ∧
    (runLoadUserTruthy (mountState (some ⟨"", ⟨7, false⟩⟩) "/dashboard")
        (Sum.inl ⟨none, "unused"⟩)).auth.token = none ∧
    (runLoadUserTruthy (mountState (some ⟨"", ⟨7, false⟩⟩) "/dashboard")
        (Sum.inl ⟨none, "unused"⟩)).tokenCookie = some ⟨"", ⟨7, false⟩⟩ ∧
    (runLoadUserTruthy (mountState (some ⟨"", ⟨7, false⟩⟩) "/dashboard")
        (Sum.inl ⟨none, "unused"⟩)).auth.isLoading = false ∧
    decide (tokensAgree (runLoadUserTruthy
        (mountState (some ⟨"", ⟨7, false⟩⟩) "/dashboard")
        (Sum.inl ⟨none, "unused"⟩))) = false := by
  decide

/-- Each session-store operation preserves the strengthened invariant
(token/cookie agreement plus a truthy cookie value), given that a
successful login stores a non-empty token. -/
theorem tokensAgreeTruthy_applyOp {s : ClientState} (h : tokensAgreeTruthy s)
    {op : SessionOp} (hop : opKeepsTruthyToken op = true) :
    tokensAgreeTruthy (applyOpTruthy s op) := by
  obtain ⟨hagree, htruthy⟩ := h
  cases op with
  | loadSession v =>
    rcases hc : s.tokenCookie with _ | c
    · refine ⟨?_, ?_⟩
      · simpa [applyOpTruthy, runLoadUserTruthy, loadUserTruthyEffects, hc,
          applyEffects, applyEffect, tokensAgree] using hagree
      · simp [applyOpTruthy, runLoadUserTruthy, loadUserTruthyEffects, hc,
          applyEffects, applyEffect]
    · have hval : (c.value != "") = true := by
        rw [hc] at htruthy
        simpa [Option.all] using htruthy
      have hne : ¬ (c.value = "") := by simpa using hval
      rcases v with f | u
      · refine ⟨?_, ?_⟩ <;>
          simp [applyOpTruthy, runLoadUserTruthy, loadUserTruthyEffects, hc, hne,
            logoutEffects, applyEffects, applyEffect, tokensAgree]
      · refine ⟨?_, ?_⟩ <;>
          simp [applyOpTruthy, runLoadUserTruthy, loadUserTruthyEffects, hc, hne,
            applyEffects, applyEffect, tokensAgree, Option.all, hval]
  | loginOp env r =>
    rcases r with f | ⟨u, jwt⟩
    · refine ⟨?_, ?_⟩
      · simpa [applyOpTruthy, runLogin, loginEffects, applyEffects, applyEffect,
          tokensAgree] using hagree
      · simpa [applyOpTruthy, runLogin, loginEffects, applyEffects, applyEffect]
          using htruthy
    · have hjwt : (jwt != "") = true := by
        simpa [opKeepsTruthyToken] using hop
      refine ⟨?_, ?_⟩ <;>
        simp [applyOpTruthy, runLogin, loginEffects, applyEffects, applyEffect,
          tokensAgree, Option.all, hjwt]
  | logoutOp =>
    refine ⟨?_, ?_⟩ <;>
      simp [applyOpTruthy, runLogout, logoutEffects, applyEffects, applyEffect,
        tokensAgree]

/-- The mount-time `loadUser` establishes the strengthened invariant from
the initial provider state, provided the persisted cookie is absent or
holds a truthy (non-empty) value. -/
theorem tokensAgreeTruthy_after_mount (cookie : Option Cookie) (p : String)
    (v : ApiFailure ⊕ User)
    (hcookie : cookie.all (fun c => c.value != "") = true) :
    tokensAgreeTruthy (runLoadUserTruthy (mountState cookie p) v) := by
  rcases cookie with _ | c
  · refine ⟨?_, ?_⟩ <;>
      simp [runLoadUserTruthy, mountState, loadUserTruthyEffects, applyEffects,
        applyEffect, tokensAgree]
  · have hval : (c.value != "") = true := by simpa [Option.all] using hcookie
    have hne : ¬ (c.value = "") := by simpa using hval
    rcases v with f | u
    · refine ⟨?_, ?_⟩ <;>
        simp [runLoadUserTruthy, mountState, loadUserTruthyEffects, hne,
          logoutEffects, applyEffects, applyEffect, tokensAgree]
    · refine ⟨?_, ?_⟩ <;>
        simp [runLoadUserTruthy, mountState, loadUserTruthyEffects, hne,
          applyEffects, applyEffect, tokensAgree, Option.all, hval]

/-- C10 (amended): after the startup `loadUser` and any subsequent
sequence of session-store operations, the in-memory token and the
persisted `token` cookie agree — each present exactly when the other is,
with the same value — provided the persisted cookie found at mount is
absent or non-empty, and every successful login stores a non-empty token.
(An empty token string is JS-falsy: `loadUser` then skips verification and
leaves the cookie in place with the in-memory token `null`, which is the
counterexample to the unconditional claim.) -/
theorem session_token_cookie_agreement_truthy (cookie : Option Cookie) (p : String)
    (v : ApiFailure ⊕ User) (ops : List SessionOp)
    (hcookie : cookie.all (fun c => c.value != "") = true)
    (hops : ops.all opKeepsTruthyToken = true) :
    tokensAgree (ops.foldl applyOpTruthy (runLoadUserTruthy (mountState cookie p) v)) := by
  have key : ∀ (l : List SessionOp) (s : ClientState),
      l.all opKeepsTruthyToken = true →
      tokensAgreeTruthy s → tokensAgreeTruthy (l.foldl applyOpTruthy s) := by
    intro l
    induction l with
    | nil => intro s _ hs; exact hs
    | cons op rest ih =>
      intro s hall hs
      rw [List.all_cons, Bool.and_eq_true] at hall
      exact ih _ hall.2 (tokensAgreeTruthy_applyOp hs hall.1)
  exact (key ops _ hops (tokensAgreeTruthy_after_mount cookie p v hcookie)).1

/-- Witness for `session_token_cookie_agreement_truthy` at concrete
inputs: a truthy persisted cookie, a successful verification, then one
login with a non-empty token followed by a logout. -/
theorem session_token_cookie_agreement_truthy_witness :
    tokensAgree
      (([SessionOp.loginOp "production"
           (Sum.inr (⟨"1", "a@b.c", none, Role.ADMIN⟩, "jwt1")),
         SessionOp.logoutOp]).foldl applyOpTruthy
        (runLoadUserTruthy
          (mountState (some ⟨"tok", ⟨7, true⟩⟩) "/x")
          (Sum.inr ⟨"1", "a@b.c", none, Role.ADMIN⟩))) :=
  session_token_cookie_agreement_truthy (some ⟨"tok", ⟨7, true⟩⟩) "/x"
    (Sum.inr ⟨"1", "a@b.c", none, Role.ADMIN⟩)
    [SessionOp.loginOp "production"
       (Sum.inr (⟨"1", "a@b.c", none, Role.ADMIN⟩, "jwt1")),
     SessionOp.logoutOp]
    (by decide) (by decide)

/-- A character of the class `[a-z0-9]` is not a hyphen. -/
theorem isSlugAlnum_ne_hyphen {c : Char} (h : isSlugAlnum c = true) :
    (c == '-') = false := by
  by_cases hc : c = '-'
  · subst hc; exact absurd h (by decide)
  · exact beq_eq_false_iff_ne.mpr hc

/-- Case folding leaves slug-normal characters unchanged. -/
theorem asciiToLower_fixed {c : Char} (h : (isSlugAlnum c || c == '-') = true) :
    asciiToLower c = c := by
  have hn : ¬ (65 ≤ c.toNat ∧ c.toNat ≤ 90) := by
    rcases Bool.or_eq_true_iff.mp h with h1 | h2
    · simp only [isSlugAlnum, Bool.or_eq_true, Bool.and_eq_true,
        decide_eq_true_eq] at h1
      omega
    · have hc : c = '-' := eq_of_beq h2
      subst hc; decide
  rw [asciiToLower, if_neg hn]

/-- Case folding fixes every string made of slug-normal characters. -/
theorem map_toLower_fixed : ∀ l : List Char, goodSlugChars l = true →
    l.map asciiToLower = l := by
  intro l
  induction l with
  | nil => intro _; rfl
  | cons c cs ih =>
    intro h
    simp only [goodSlugChars, List.all_cons, Bool.and_eq_true] at h
    simp only [List.map_cons, asciiToLower_fixed h.1, ih h.2]

/-- The collapse step only emits `[a-z0-9]` characters and hyphens. -/
theorem goodSlugChars_collapseRuns : ∀ (l : List Char) (b : Bool),
    goodSlugChars (collapseRuns b l) = true := by
  intro l
  induction l with
  | nil => intro _; rfl
  | cons c cs ih =>
    intro b
    cases hc : isSlugAlnum c with
    | true =>
      have hcons : goodSlugChars (c :: collapseRuns false cs) = true := by
        simp only [goodSlugChars, List.all_cons, Bool.and_eq_true]
        exact ⟨by simp [hc], ih false⟩
      simpa only [collapseRuns, hc, if_true] using hcons
    | false =>
      cases b with
      | true => simpa only [collapseRuns, hc, if_false, if_true] using ih true
      | false =>
        have hcons : goodSlugChars ('-' :: collapseRuns true cs) = true := by
          simp only [goodSlugChars, List.all_cons, Bool.and_eq_true]
          exact ⟨by decide, ih true⟩
        simpa only [collapseRuns, hc, if_false] using hcons

/-- Prepending a non-hyphen preserves `noDoubleHyphen`. -/
theorem noDD_cons {c : Char} {x : List Char}
    (hp : (c == '-') = false ∨ headIsHyphen x = false)
    (hx : noDoubleHyphen x = true) : noDoubleHyphen (c :: x) = true := by
  cases x with
  | nil => rfl
  | cons d rest =>
    rcases hp with hp | hp
    · simp [noDoubleHyphen, hp, hx]
    · simp only [headIsHyphen] at hp
      simp [noDoubleHyphen, hp, hx]

/-- The `noDoubleHyphen` property restricts to the tail. -/
theorem noDD_tail {c : Char} {l : List Char}
    (h : noDoubleHyphen (c :: l) = true) : noDoubleHyphen l = true := by
  cases l with
  | nil => rfl
  | cons d rest =>
    simp only [noDoubleHyphen, Bool.and_eq_true] at h
    exact h.2

/-- Under `noDoubleHyphen`, the character after a leading hyphen is not a
hyphen. -/
theorem noDD_head_tail {l : List Char}
    (h : noDoubleHyphen ('-' :: l) = true) : headIsHyphen l = false := by
  cases l with
  | nil => rfl
  | cons d rest =>
    cases hd : (d == '-') with
    | false => simp [headIsHyphen, hd]
    | true =>
      have hd' : d = '-' := eq_of_beq hd
      subst hd'
      simp [noDoubleHyphen] at h

/-- The collapse step never emits two adjacent hyphens, and in run mode it
never starts its output with a hyphen. -/
theorem collapse_shape : ∀ l : List Char,
    noDoubleHyphen (collapseRuns false l) = true ∧
    noDoubleHyphen (collapseRuns true l) = true ∧
    headIsHyphen (collapseRuns true l) = false := by
  intro l
  induction l with
  | nil => exact ⟨rfl, rfl, rfl⟩
  | cons c cs ih =>
    obtain ⟨ihF, ihT, ihH⟩ := ih
    cases hc : isSlugAlnum c with
    | true =>
      have hne := isSlugAlnum_ne_hyphen hc
      refine ⟨?_, ?_, ?_⟩ <;> simp only [collapseRuns, hc, if_true]
      · exact noDD_cons (Or.inl hne) ihF
      · exact noDD_cons (Or.inl hne) ihF
      · simp [headIsHyphen, hne]
    | false =>
      refine ⟨?_, ?_, ?_⟩ <;> simp only [collapseRuns, hc, if_false]
      · exact noDD_cons (Or.inr ihH) ihT
      · exact ihT
      · exact ihH

/-- Unfolding equation: `goodSlugChars` on a cons cell. -/
theorem good_cons {c : Char} {cs : List Char} :
    goodSlugChars (c :: cs) = ((isSlugAlnum c || c == '-') && goodSlugChars cs) :=
  rfl

/-- Unfolding equation: `dropLeadingHyphen` keeps a non-hyphen head. -/
theorem dropLeading_cons_false {c : Char} {cs : List Char}
    (hc : (c == '-') = false) : dropLeadingHyphen (c :: cs) = c :: cs := by
  simp [dropLeadingHyphen, hc]

/-- Unfolding equation: `dropLeadingHyphen` removes a hyphen head. -/
theorem dropLeading_cons_true {c : Char} {cs : List Char}
    (hc : (c == '-') = true) : dropLeadingHyphen (c :: cs) = cs := by
  simp [dropLeadingHyphen, hc]

/-- Unfolding equation: `dropTrailingHyphen` removes a final hyphen. -/
theorem dropTrailing_single_true {c : Char} (hc : (c == '-') = true) :
    dropTrailingHyphen [c] = [] := by
  simp [dropTrailingHyphen, hc]

/-- Unfolding equation: `dropTrailingHyphen` keeps a final non-hyphen. -/
theorem dropTrailing_single_false {c : Char} (hc : (c == '-') = false) :
    dropTrailingHyphen [c] = [c] := by
  simp [dropTrailingHyphen, hc]

/-- Unfolding equation: `dropTrailingHyphen` on two or more characters. -/
theorem dropTrailing_cons_cons {c d : Char} {rest : List Char} :
    dropTrailingHyphen (c :: d :: rest) = c :: dropTrailingHyphen (d :: rest) :=
  rfl

/-- Dropping the leading hyphen keeps all characters slug-normal. -/
theorem good_dropLeading {l : List Char} (h : goodSlugChars l = true) :
    goodSlugChars (dropLeadingHyphen l) = true := by
  cases l with
  | nil => rfl
  | cons c cs =>
    rw [good_cons, Bool.and_eq_true] at h
    cases hc : (c == '-') with
    | true => rw [dropLeading_cons_true hc]; exact h.2
    | false =>
      rw [dropLeading_cons_false hc, good_cons, Bool.and_eq_true]
      exact h

/-- Dropping the leading hyphen preserves `noDoubleHyphen`. -/
theorem noDD_dropLeading {l : List Char} (h : noDoubleHyphen l = true) :
    noDoubleHyphen (dropLeadingHyphen l) = true := by
  cases l with
  | nil => rfl
  | cons c cs =>
    cases hc : (c == '-') with
    | true => rw [dropLeading_cons_true hc]; exact noDD_tail h
    | false => rw [dropLeading_cons_false hc]; exact h

/-- After dropping the leading hyphen of a `noDoubleHyphen` list, the
head is not a hyphen. -/
theorem head_dropLeading {l : List Char} (h : noDoubleHyphen l = true) :
    headIsHyphen (dropLeadingHyphen l) = false := by
  cases l with
  | nil => rfl
  | cons c cs =>
    cases hc : (c == '-') with
    | false => rw [dropLeading_cons_false hc]; simpa only [headIsHyphen] using hc
    | true =>
      have hc' : c = '-' := eq_of_beq hc
      subst hc'
      rw [dropLeading_cons_true hc]
      exact noDD_head_tail h

/-- Dropping the trailing hyphen keeps all characters slug-normal. -/
theorem good_dropTrailing : ∀ l : List Char, goodSlugChars l = true →
    goodSlugChars (dropTrailingHyphen l) = true := by
  intro l
  induction l with
  | nil => intro _; rfl
  | cons c cs ih =>
    intro h
    rw [good_cons, Bool.and_eq_true] at h
    cases cs with
    | nil =>
      cases hc : (c == '-') with
      | true => rw [dropTrailing_single_true hc]; rfl
      | false =>
        rw [dropTrailing_single_false hc, good_cons, Bool.and_eq_true]
        exact ⟨h.1, rfl⟩
    | cons d rest =>
      rw [dropTrailing_cons_cons, good_cons, Bool.and_eq_true]
      exact ⟨h.1, ih h.2⟩

/-- Dropping the trailing hyphen preserves a hyphen-free head. -/
theorem head_dropTrailing : ∀ l : List Char, headIsHyphen l = false →
    headIsHyphen (dropTrailingHyphen l) = false := by
  intro l
  cases l with
  | nil => intro _; rfl
  | cons c cs =>
    intro h
    simp only [headIsHyphen] at h
    cases cs with
    | nil => rw [dropTrailing_single_false h]; simpa only [headIsHyphen] using h
    | cons d rest =>
      rw [dropTrailing_cons_cons]
      simpa only [headIsHyphen] using h

/-- A non-empty list maps to `[]` under `dropTrailingHyphen` only when it
is the singleton hyphen. -/
theorem dropTrailing_eq_nil {d : Char} {rest : List Char}
    (h : dropTrailingHyphen (d :: rest) = []) :
    rest = [] ∧ (d == '-') = true := by
  cases rest with
  | nil =>
    cases hd : (d == '-') with
    | true => exact ⟨rfl, rfl⟩
    | false => simp [dropTrailingHyphen, hd] at h
  | cons e rest' => simp [dropTrailingHyphen] at h

/-- Dropping the trailing hyphen preserves `noDoubleHyphen`. -/
theorem noDD_dropTrailing : ∀ l : List Char, noDoubleHyphen l = true →
    noDoubleHyphen (dropTrailingHyphen l) = true := by
  intro l
  induction l with
  | nil => intro _; rfl
  | cons c cs ih =>
    intro h
    cases cs with
    | nil =>
      cases hc : (c == '-') with
      | true => rw [dropTrailing_single_true hc]; rfl
      | false => rw [dropTrailing_single_false hc]; rfl
    | cons d rest =>
      simp only [noDoubleHyphen, Bool.and_eq_true] at h
      have hX := ih h.2
      rw [dropTrailing_cons_cons]
      cases hc : (c == '-') with
      | false => exact noDD_cons (Or.inl hc) hX
      | true =>
        have hc' : c = '-' := eq_of_beq hc
        subst hc'
        have hd : (d == '-') = false := by
          cases hd : (d == '-') with
          | false => rfl
          | true =>
            have := h.1
            simp [hc, hd] at this
        have hhd : headIsHyphen (dropTrailingHyphen (d :: rest)) = false :=
          head_dropTrailing (d :: rest) (by simpa only [headIsHyphen] using hd)
        exact noDD_cons (Or.inr hhd) hX

/-- After dropping the trailing hyphen of a `noDoubleHyphen` list, the
last character is not a hyphen. -/
theorem last_dropTrailing : ∀ l : List Char, noDoubleHyphen l = true →
    lastIsHyphen (dropTrailingHyphen l) = false := by
  intro l
  induction l with
  | nil => intro _; rfl
  | cons c cs ih =>
    intro h
    cases cs with
    | nil =>
      cases hc : (c == '-') with
      | true => rw [dropTrailing_single_true hc]; rfl
      | false => rw [dropTrailing_single_false hc]; simpa only [lastIsHyphen] using hc
    | cons d rest =>
      simp only [noDoubleHyphen, Bool.and_eq_true] at h
      have hX := ih h.2
      rw [dropTrailing_cons_cons]
      cases hX' : dropTrailingHyphen (d :: rest) with
      | nil =>
        obtain ⟨hrest, hd⟩ := dropTrailing_eq_nil hX'
        subst hrest
        have hd' : d = '-' := eq_of_beq hd
        subst hd'
        have hcne : (c == '-') = false := by
          cases hcb : (c == '-') with
          | false => rfl
          | true =>
            have := h.1
            simp [hcb] at this
        simp [lastIsHyphen, hcne]
      | cons e tail =>
        rw [hX'] at hX
        simpa only [lastIsHyphen] using hX

/-- The collapse step fixes every slug-normal list (and, when the scan
starts inside a run, every slug-normal list that does not start with a
hyphen). -/
theorem collapse_fixed : ∀ l : List Char, goodSlugChars l = true →
    noDoubleHyphen l = true →
    collapseRuns false l = l ∧
      (headIsHyphen l = false → collapseRuns true l = l) := by
  intro l
  induction l with
  | nil => intro _ _; exact ⟨rfl, fun _ => rfl⟩
  | cons c cs ih =>
    intro hg hdd
    rw [good_cons, Bool.and_eq_true] at hg
    have ihs := ih hg.2 (noDD_tail hdd)
    rcases Bool.or_eq_true_iff.mp hg.1 with ha | hh
    · constructor
      · simp [collapseRuns, ha, ihs.1]
      · intro _
        simp [collapseRuns, ha, ihs.1]
    · have hc : c = '-' := eq_of_beq hh
      subst hc
      have halnum : isSlugAlnum '-' = false := by decide
      constructor
      · have hcs : headIsHyphen cs = false := noDD_head_tail hdd
        simp [collapseRuns, halnum, ihs.2 hcs]
      · intro hfalse
        simp [headIsHyphen] at hfalse

/-- A hyphen-free head survives `dropLeadingHyphen`. -/
theorem dropLeading_fixed {l : List Char} (h : headIsHyphen l = false) :
    dropLeadingHyphen l = l := by
  cases l with
  | nil => rfl
  | cons c cs =>
    simp only [headIsHyphen] at h
    exact dropLeading_cons_false h

/-- A hyphen-free last character survives `dropTrailingHyphen`. -/
theorem dropTrailing_fixed : ∀ l : List Char, lastIsHyphen l = false →
    dropTrailingHyphen l = l := by
  intro l
  induction l with
  | nil => intro _; rfl
  | cons c cs ih =>
    intro h
    cases cs with
    | nil => exact dropTrailing_single_false (by simpa only [lastIsHyphen] using h)
    | cons d rest =>
      rw [dropTrailing_cons_cons, ih (by simpa only [lastIsHyphen] using h)]

/-- The slug pipeline always produces a normal-form list: slug characters
only, no adjacent hyphens, no leading or trailing hyphen. -/
theorem slugChars_normal (l : List Char) : isNormalSlug (slugChars l) = true := by
  have hg : goodSlugChars (collapseRuns false (l.map asciiToLower)) = true :=
    goodSlugChars_collapseRuns (l.map asciiToLower) false
  have hdd : noDoubleHyphen (collapseRuns false (l.map asciiToLower)) = true :=
    (collapse_shape (l.map asciiToLower)).1
  have hg1 := good_dropLeading hg
  have hdd1 := noDD_dropLeading hdd
  have hh1 := head_dropLeading hdd
  have hg2 := good_dropTrailing _ hg1
  have hdd2 := noDD_dropTrailing _ hdd1
  have hh2 := head_dropTrailing _ hh1
  have hl2 := last_dropTrailing _ hdd1
  simp only [slugChars, stripEdgeHyphens, isNormalSlug, Bool.and_eq_true,
    Bool.not_eq_true']
  exact ⟨⟨⟨hg2, hdd2⟩, hh2⟩, hl2⟩

/-- The slug pipeline fixes every normal-form list. -/
theorem slugChars_fixed {l : List Char} (h : isNormalSlug l = true) :
    slugChars l = l := by
  simp only [isNormalSlug, Bool.and_eq_true, Bool.not_eq_true'] at h
  obtain ⟨⟨⟨hg, hdd⟩, hh⟩, hl⟩ := h
  unfold slugChars stripEdgeHyphens
  rw [map_toLower_fixed l hg, (collapse_fixed l hg hdd).1, dropLeading_fixed hh,
    dropTrailing_fixed l hl]

/-- C8: slug derivation is a pure function; it sends the spec's example
title `My New Project!!` to `my-new-project`; it is idempotent on every
title; and every derived slug is lowercase-alphanumeric-with-hyphens, with
non-alphanumeric runs collapsed (no adjacent hyphens) and no leading or
trailing hyphen. -/
theorem slug_derivation_idempotent :
    slugify "My New Project!!" = "my-new-project" ∧
    (∀ t : String, slugify (slugify t) = slugify t) ∧
    (∀ t : String, goodSlugChars (slugify t).toList = true ∧
      noDoubleHyphen (slugify t).toList = true ∧
      headIsHyphen (slugify t).toList = false ∧
      lastIsHyphen (slugify t).toList = false) := by
  refine ⟨rfl, ?_, ?_⟩
  · intro t
    show String.mk (slugChars (slugChars t.toList)) = String.mk (slugChars t.toList)
    rw [slugChars_fixed (slugChars_normal t.toList)]
  · intro t
    have hn := slugChars_normal t.toList
    simp only [isNormalSlug, Bool.and_eq_true, Bool.not_eq_true'] at hn
    exact ⟨hn.1.1.1, hn.1.1.2, hn.1.2, hn.2⟩

end Aiconmac
